import Mathlib

/-!
A shallow embedding of `src/pacman/controller.py` from the MRLCommunication
repository, together with proofs about its dispatch and session-tracking
behaviour.

Python dictionaries are modelled as association lists with
overwrite-in-place insertion (`insA`), deletion (`delA`), lookup
(`lookupA`) and key iteration (`keysA`).  A failing dictionary subscript
(Python `KeyError`) is modelled with `Except Err`.  Every reply sent on
the channel is recorded together with the controller state at the moment
of the `server.send` call, so that the relative order of state mutations
and sends is visible in the model.

The module `state` (class `GameState`) and the agent classes are external
collaborators of the controller and are not part of the source tree; their
interface is modelled from the specification (see the doc comments marked
"Modelled from the spec").
-/

namespace MRL

/-- A board position, as carried in the message payloads. -/
abbrev Pos := Nat × Nat

/-- Overwrite-in-place insertion into an association list: replaces the
first binding of `k` if present, otherwise appends at the end (Python
`d[k] = v`). -/
def insA {α : Type} (k : Nat) (v : α) : List (Nat × α) → List (Nat × α)
  | [] => [(k, v)]
  | (k', v') :: t => if k = k' then (k, v) :: t else (k', v') :: insA k v t

/-- Deletion from an association list (Python `del d[k]`; a no-op when the
key is absent, matching the guarded `if k in d: del d[k]` uses in the
source). -/
def delA {α : Type} (k : Nat) : List (Nat × α) → List (Nat × α)
  | [] => []
  | (k', v') :: t => if k = k' then delA k t else (k', v') :: delA k t

/-- Lookup in an association list (Python `d[k]`, `none` meaning
`KeyError`). -/
def lookupA {α : Type} (k : Nat) : List (Nat × α) → Option α
  | [] => none
  | (k', v') :: t => if k = k' then some v' else lookupA k t

/-- The keys of an association list, in iteration order (Python
`for k in d`). -/
def keysA {α : Type} (l : List (Nat × α)) : List Nat :=
  l.map Prod.fst

/-- A live decision-logic object, as stored in `self.agents`.

Modelled from the spec: the concrete agent classes are external.  An
instance is constructed from `(agent_id, ally_ids, enemy_ids)` by the
class looked up in `self.agent_classes` (recorded here as the tag `cls`),
and carries a behavior counter and a policy value.  A freshly constructed
instance has behavior counter 0. -/
structure AgentInstance where
  cls : Nat
  agent_id : Nat
  ally_ids : List Nat
  enemy_ids : List Nat
  behavior_count : Nat
  policy : Nat
deriving DecidableEq, Repr

/-- Modelled from the spec: construction of a fresh decision-logic
instance, `self.agent_classes[agent_id](agent_id, ally_ids, enemy_ids)`.
The behavior counter starts at 0 and the policy value at a default. -/
def newAgent (cls aid : Nat) (ally_ids enemy_ids : List Nat) : AgentInstance :=
  { cls := cls, agent_id := aid, ally_ids := ally_ids,
    enemy_ids := enemy_ids, behavior_count := 0, policy := 0 }

/-- The per-agent Session State, as stored in `self.game_states`.

Modelled from the spec: class `GameState` lives in the external `state`
module.  It holds the constructor arguments used by the controller
(`width`, `height`, `walls`, `agent_id`, `ally_ids`, `enemy_ids`, `eater`,
`iteration`), the food snapshot, the last-known positions and fragility
flags written by `observe_agent` / `observe_fragile_agent`, and a log of
the `predict_agent` calls made on it (the belief update itself is
external; the log records which calls were made, and with which action). -/
structure GameState where
  width : Nat
  height : Nat
  walls : List Pos
  food : List Pos
  agent_id : Nat
  ally_ids : List Nat
  enemy_ids : List Nat
  eater : Bool
  iteration : Nat
  observed_pos : List (Nat × Pos)
  fragile : List (Nat × Bool)
  predict_log : List (Nat × String)
deriving DecidableEq, Repr

/-- Modelled from the spec: the `GameState` constructor as called by the
controller (`GameState(width=…, height=…, walls=[], agent_id=…,
ally_ids=…, enemy_ids=…, eater=…, iteration=…)`).  A fresh Session State
starts with empty observed positions and fragility maps ("fresh
positions/fragility", spec section 3). -/
def newGameState (w h aid : Nat) (ally_ids enemy_ids : List Nat)
    (eater : Bool) (iteration : Nat) : GameState :=
  { width := w, height := h, walls := [], food := [], agent_id := aid,
    ally_ids := ally_ids, enemy_ids := enemy_ids, eater := eater,
    iteration := iteration, observed_pos := [], fragile := [],
    predict_log := [] }

/-- Modelled from the spec: `observe_agent(other_id, position)` overwrites
`other_id`'s last-known position (last-write-wins). -/
def GameState.observe_agent (gs : GameState) (id : Nat) (pos : Pos) : GameState :=
  { gs with observed_pos := insA id pos gs.observed_pos }

/-- Modelled from the spec: `observe_fragile_agent(other_id, flag)`
overwrites `other_id`'s fragility flag. -/
def GameState.observe_fragile_agent (gs : GameState) (id : Nat) (flag : Bool) : GameState :=
  { gs with fragile := insA id flag gs.fragile }

/-- Modelled from the spec: `predict_agent(other_id, action)` advances the
belief about `other_id` given the acting agent's chosen action.  The
belief update is external; the model records the call in the log. -/
def GameState.predict_agent (gs : GameState) (id : Nat) (action : String) : GameState :=
  { gs with predict_log := gs.predict_log ++ [(id, action)] }

/-- Modelled from the spec: `set_walls(positions)` replaces the wall
snapshot wholesale. -/
def GameState.set_walls (gs : GameState) (positions : List Pos) : GameState :=
  { gs with walls := positions }

/-- Modelled from the spec: `set_food_positions(positions)` replaces the
food snapshot wholesale. -/
def GameState.set_food_positions (gs : GameState) (positions : List Pos) : GameState :=
  { gs with food := positions }

/-- The controller's mutable attributes (`controller.py`, `__init__` plus
the `last_action` attribute set by `run`). -/
structure CState where
  agents : List (Nat × AgentInstance)
  agent_classes : List (Nat × Nat)
  agent_teams : List (Nat × String)
  game_states : List (Nat × GameState)
  game_number : List (Nat × Nat)
  last_action : String
deriving DecidableEq, Repr

/-- The controller state right after construction and the `run` preamble:
all five dictionaries empty, `last_action = 'Stop'`. -/
def CState.initial : CState :=
  { agents := [], agent_classes := [], agent_teams := [],
    game_states := [], game_number := [], last_action := "Stop" }

/-- A `KeyError` raised by a dictionary subscript, tagged with the
dictionary's name and the missing key. -/
inductive Err where
  | keyError (dict : String) (key : Nat)
deriving DecidableEq, Repr

/-- Incoming messages, one constructor per recognized `msg.type` plus
`other` for any unrecognized kind. -/
inductive Msg where
  | register (agent_id agent_class : Nat) (agent_team : String)
  | init (agent_id : Nat)
  | gameStart (agent_id map_width map_height : Nat)
  | state (agent_id : Nat) (wall_positions food_positions : List Pos)
      (agent_positions : List (Nat × Pos)) (fragile_agents : List (Nat × Bool))
      (executed_action : String) (reward : Int) (legal_actions : List String)
      (test_mode : Bool)
  | requestBehaviorCount (agent_id : Nat)
  | requestPolicy (agent_id : Nat)
  | policy (agent_id policy : Nat)
  | other (tag : Nat)
deriving DecidableEq, Repr

/-- Reply messages sent back on the channel. -/
inductive Reply where
  | ack
  | action (agent_id : Nat) (action : String)
  | behaviorCount (count : Nat)
  | policy (agent_id policy : Nat)
deriving DecidableEq, Repr

/-- The external decision routine `choose_action(state, last_action,
reward, legal_actions, test_mode)`; the algorithm it runs is out of scope,
so the development is parametric in it. -/
abbrev ChooseFn := GameState → String → Int → List String → Bool → String

/-- A trivial decision routine, used to instantiate `ChooseFn` on concrete
runs. -/
def caStop : ChooseFn := fun _ _ _ _ _ => "Stop"

/-- `__get_allies__`: ids registered on the same team, excluding the agent
itself.  The comprehension iterates the keys of `agent_teams`; evaluating
its condition subscripts `agent_teams[agent_id]`, which raises `KeyError`
when `agent_id` is unregistered — unless the dictionary is empty, in which
case the comprehension body never runs. -/
def get_allies (s : CState) (aid : Nat) : Except Err (List Nat) :=
  if s.agent_teams.isEmpty then .ok []
  else
    match lookupA aid s.agent_teams with
    | none => .error (.keyError "agent_teams" aid)
    | some t => .ok ((keysA s.agent_teams).filter
        (fun id => decide (lookupA id s.agent_teams = some t ∧ id ≠ aid)))

/-- `__get_enemies__`: ids registered on a different team, excluding the
agent itself; same subscripting behaviour as `__get_allies__`. -/
def get_enemies (s : CState) (aid : Nat) : Except Err (List Nat) :=
  if s.agent_teams.isEmpty then .ok []
  else
    match lookupA aid s.agent_teams with
    | none => .error (.keyError "agent_teams" aid)
    | some t => .ok ((keysA s.agent_teams).filter
        (fun id => decide (lookupA id s.agent_teams ≠ some t ∧ id ≠ aid)))

/-- `__initialize_agent__`: compute allies/enemies, drop any previous
instance, set `game_number[agent_id] = 0`, construct a fresh instance from
`agent_classes[agent_id]`, log (which subscripts `agent_teams[agent_id]`),
then send an `Ack`.  Each send is recorded with the controller state at
the moment of sending. -/
def initialize_agent (s : CState) (aid : Nat) :
    Except Err (CState × List (Reply × CState)) :=
  match get_allies s aid with
  | .error e => .error e
  | .ok ally_ids =>
    match get_enemies s aid with
    | .error e => .error e
    | .ok enemy_ids =>
      let s1 : CState := { s with agents := delA aid s.agents }
      let s2 : CState := { s1 with game_number := insA aid 0 s1.game_number }
      match lookupA aid s2.agent_classes with
      | none => .error (.keyError "agent_classes" aid)
      | some cls =>
        let s3 : CState :=
          { s2 with agents := insA aid (newAgent cls aid ally_ids enemy_ids) s2.agents }
        match lookupA aid s3.agent_teams with
        | none => .error (.keyError "agent_teams" aid)
        | some _ => .ok (s3, [(Reply.ack, s3)])

/-- `__register_agent__`: store class and team for `msg.agent_id`, then
send an `Ack`.  Never raises. -/
def register_agent (s : CState) (aid cls : Nat) (team : String) :
    CState × List (Reply × CState) :=
  let s1 : CState :=
    { s with agent_classes := insA aid cls s.agent_classes,
             agent_teams := insA aid team s.agent_teams }
  (s1, [(Reply.ack, s1)])

/-- `__request_behavior_count__`: read `agents[agent_id].behavior_count`,
send the `BehaviorCount` reply, and only then call
`reset_behavior_count()` (modelled from the spec: the reset sets the
counter to 0).  The source subscripts `self.agents[agent_id]` a second
time for the reset; the dictionary is unchanged in between, so one lookup
is performed here. -/
def request_behavior_count (s : CState) (aid : Nat) :
    Except Err (CState × List (Reply × CState)) :=
  match lookupA aid s.agents with
  | none => .error (.keyError "agents" aid)
  | some ag =>
    let sends := [(Reply.behaviorCount ag.behavior_count, s)]
    .ok ({ s with agents := insA aid { ag with behavior_count := 0 } s.agents }, sends)

/-- The observe loop of `__choose_action__`: one `observe_agent` call per
`(id, pos)` pair of the `agent_positions` payload, in payload order. -/
def observe_all_agents (gs : GameState) (apos : List (Nat × Pos)) : GameState :=
  apos.foldl (fun g p => g.observe_agent p.1 p.2) gs

/-- The fragility loop of `__choose_action__`: one `observe_fragile_agent`
call per `(id, flag)` pair of the `fragile_agents` payload. -/
def observe_all_fragile (gs : GameState) (frag : List (Nat × Bool)) : GameState :=
  frag.foldl (fun g p => g.observe_fragile_agent p.1 p.2) gs

/-- `__choose_action__`: run the observe loops on
`game_states[agent_id]` (each loop iteration subscripts that entry; the
single up-front lookup here is equivalent because the caller has already
subscripted it successfully), invoke `agents[agent_id].choose_action`
(modelled from the spec: the decision routine is external, and its one
modelled internal effect is counting the invocation in the behavior
counter), then call `predict_agent(id, action)` on the acting agent's
Session State once per key of `self.game_states`, in iteration order. -/
def choose_action (ca : ChooseFn) (s : CState) (aid : Nat)
    (apos : List (Nat × Pos)) (frag : List (Nat × Bool))
    (executed_action : String) (reward : Int) (legal_actions : List String)
    (test_mode : Bool) : Except Err (CState × String) :=
  match lookupA aid s.game_states with
  | none => .error (.keyError "game_states" aid)
  | some gs0 =>
    let gs2 := observe_all_fragile (observe_all_agents gs0 apos) frag
    let s1 : CState := { s with game_states := insA aid gs2 s.game_states }
    match lookupA aid s1.agents with
    | none => .error (.keyError "agents" aid)
    | some ag =>
      let act := ca gs2 executed_action reward legal_actions test_mode
      let s2 : CState :=
        { s1 with agents := insA aid { ag with behavior_count := ag.behavior_count + 1 } s1.agents }
      let gs3 := (keysA s2.game_states).foldl (fun g id => g.predict_agent id act) gs2
      let s3 : CState := { s2 with game_states := insA aid gs3 s2.game_states }
      .ok (s3, act)

/-- `__send_agent_action__`: fetch `game_states[msg.agent_id]` (the
`KeyError` point when STATE arrives before GAME_START), replace the walls
and food snapshots, run `__choose_action__`, then send the `Action`
reply.  Returns the chosen action to `__process__`. -/
def send_agent_action (ca : ChooseFn) (s : CState) (aid : Nat)
    (wall_positions food_positions : List Pos)
    (apos : List (Nat × Pos)) (frag : List (Nat × Bool))
    (executed_action : String) (reward : Int) (legal_actions : List String)
    (test_mode : Bool) :
    Except Err (CState × List (Reply × CState) × String) :=
  match lookupA aid s.game_states with
  | none => .error (.keyError "game_states" aid)
  | some gs =>
    let gs1 := (gs.set_walls wall_positions).set_food_positions food_positions
    let s1 : CState := { s with game_states := insA aid gs1 s.game_states }
    match choose_action ca s1 aid apos frag executed_action reward legal_actions test_mode with
    | .error e => .error e
    | .ok (s2, act) => .ok (s2, [(Reply.action aid act, s2)], act)

/-- `__send_policy_request__`: read `agents[msg.agent_id].get_policy()`
(modelled from the spec: returns the stored policy value) and send the
`Policy` reply.  No state mutation. -/
def send_policy_request (s : CState) (aid : Nat) :
    Except Err (CState × List (Reply × CState)) :=
  match lookupA aid s.agents with
  | none => .error (.keyError "agents" aid)
  | some ag => .ok (s, [(Reply.policy aid ag.policy, s)])

/-- `__set_agent_policy__`: overwrite the agent's policy value (modelled
from the spec: `set_policy` stores it), then send an `Ack`. -/
def set_agent_policy (s : CState) (aid p : Nat) :
    Except Err (CState × List (Reply × CState)) :=
  match lookupA aid s.agents with
  | none => .error (.keyError "agents" aid)
  | some ag =>
    let s1 : CState := { s with agents := insA aid { ag with policy := p } s.agents }
    .ok (s1, [(Reply.ack, s1)])

/-- `__start_game_for_agent__`: compute allies/enemies, read the team for
the eater flag, drop any previous Session State, read
`game_number[msg.agent_id]` as the iteration seed, construct a fresh
`GameState`, then send an `Ack` (the trailing log subscripts
`agent_teams[msg.agent_id]` again, which already succeeded above). -/
def start_game_for_agent (s : CState) (aid w h : Nat) :
    Except Err (CState × List (Reply × CState)) :=
  match get_allies s aid with
  | .error e => .error e
  | .ok ally_ids =>
    match get_enemies s aid with
    | .error e => .error e
    | .ok enemy_ids =>
      match lookupA aid s.agent_teams with
      | none => .error (.keyError "agent_teams" aid)
      | some tm =>
        let eater := tm == "pacman"
        let s1 : CState := { s with game_states := delA aid s.game_states }
        match lookupA aid s1.game_number with
        | none => .error (.keyError "game_number" aid)
        | some iteration =>
          let gs := newGameState w h aid ally_ids enemy_ids eater iteration
          let s2 : CState := { s1 with game_states := insA aid gs s1.game_states }
          .ok (s2, [(Reply.ack, s2)])

/-- `__process__`: dispatch on `msg.type`.  After a STATE handler returns,
the chosen action is cached in `last_action`; after a GAME_START handler
returns, `game_number[msg.agent_id]` is incremented — both of these
happen after the handler has sent its reply.  A message whose kind
matches none of the seven branches falls through: no handler, no reply,
no state change. -/
def process (ca : ChooseFn) (s : CState) (m : Msg) :
    Except Err (CState × List (Reply × CState)) :=
  match m with
  | .state aid wp fp apos frag ea rw la tmode =>
    match send_agent_action ca s aid wp fp apos frag ea rw la tmode with
    | .error e => .error e
    | .ok (s1, sends, act) => .ok ({ s1 with last_action := act }, sends)
  | .init aid => initialize_agent s aid
  | .gameStart aid w h =>
    match start_game_for_agent s aid w h with
    | .error e => .error e
    | .ok (s1, sends) =>
      match lookupA aid s1.game_number with
      | none => .error (.keyError "game_number" aid)
      | some n =>
        .ok ({ s1 with game_number := insA aid (n + 1) s1.game_number }, sends)
  | .register aid cls team => .ok (register_agent s aid cls team)
  | .requestBehaviorCount aid => request_behavior_count s aid
  | .requestPolicy aid => send_policy_request s aid
  | .policy aid p => set_agent_policy s aid p
  | .other _ => .ok (s, [])

/-- Whether a message kind appears in the dispatch table of
`__process__`. -/
def recognized : Msg → Bool
  | .other _ => false
  | _ => true

/-- The outcome of running the blocking loop on a finite prefix of the
message stream: either every message was processed, or an uncaught
`KeyError` terminated the process.  `sends` lists the replies delivered
before the end, each with the state snapshot at its send. -/
inductive RunResult where
  | ok (s : CState) (sends : List (Reply × CState))
  | crashed (e : Err) (sends : List (Reply × CState))
deriving DecidableEq, Repr

/-- The replies a run delivered. -/
def RunResult.sentMsgs : RunResult → List (Reply × CState)
  | .ok _ sends => sends
  | .crashed _ sends => sends

/-- The final controller state of a run, if it did not crash. -/
def RunResult.finalState : RunResult → Option CState
  | .ok s _ => some s
  | .crashed _ _ => none

/-- Whether the run ended in an uncaught error. -/
def RunResult.isCrashed : RunResult → Bool
  | .ok _ _ => false
  | .crashed _ _ => true

/-- The `run` loop on a finite message prefix: process each message in
turn; an uncaught `KeyError` propagates out of the loop and kills the
process (`run` installs no handler), leaving the remaining messages
unprocessed. -/
def runLoop (ca : ChooseFn) (s : CState) : List Msg → RunResult
  | [] => .ok s []
  | m :: ms =>
    match process ca s m with
    | .error e => .crashed e []
    | .ok (s1, sends) =>
      match runLoop ca s1 ms with
      | .ok s2 rest => .ok s2 (sends ++ rest)
      | .crashed e rest => .crashed e (sends ++ rest)

/-- The state change the dispatcher applies after the reply has already
been sent: for GAME_START the `game_number` increment in `__process__`,
for REQUEST_BEHAVIOR_COUNT the `reset_behavior_count()` call, for STATE
the caching of the chosen action in `last_action`; for the other four
recognized kinds, nothing. -/
def post_reply_mutation (m : Msg) (r : Reply) (snap : CState) : CState :=
  match m, r with
  | .state _ _ _ _ _ _ _ _ _, .action _ act => { snap with last_action := act }
  | .gameStart aid _ _, _ =>
    match lookupA aid snap.game_number with
    | some n => { snap with game_number := insA aid (n + 1) snap.game_number }
    | none => snap
  | .requestBehaviorCount aid, _ =>
    match lookupA aid snap.agents with
    | some ag => { snap with agents := insA aid { ag with behavior_count := 0 } snap.agents }
    | none => snap
  | _, _ => snap

/-- A controller state with agent 1 registered (class 7, team pacman) and
nothing else. -/
def c6wstate : CState :=
  { CState.initial with agent_classes := [(1, 7)], agent_teams := [(1, "pacman")] }

/-- A controller state with agent 1 on team pacman and episode counter 3. -/
def c8wstate : CState :=
  { CState.initial with agent_teams := [(1, "pacman")], game_number := [(1, 3)] }

/-- An agent instance for agent 1 whose behavior counter stands at 5. -/
def c9ag : AgentInstance :=
  { cls := 0, agent_id := 1, ally_ids := [], enemy_ids := [],
    behavior_count := 5, policy := 0 }

/-- A controller state holding only agent 1's instance `c9ag`. -/
def c9wstate : CState := { CState.initial with agents := [(1, c9ag)] }

/-- `c9wstate` after agent 1's behavior counter has been reset. -/
def c9wstate2 : CState :=
  { c9wstate with agents := insA 1 { c9ag with behavior_count := 0 } c9wstate.agents }

/-- A message trace with an INIT between two GAME_STARTs for agent 1. -/
def c1trace : List Msg :=
  [.register 1 0 "pacman", .init 1, .gameStart 1 10 10, .init 1,
   .gameStart 1 10 10]

/-- A controller state with agent 1 registered and episode counter 4. -/
def c1wstate : CState :=
  { CState.initial with
      agent_classes := [(1, 0)]
      agent_teams := [(1, "pacman")]
      game_number := [(1, 4)] }

/-- A trace in which agent 1's STATE payload mentions agent 2, which has
no Session State of its own. -/
def c2trace : List Msg :=
  [.register 1 0 "pacman", .init 1, .gameStart 1 10 10,
   .state 1 [] [] [(2, (3, 3))] [] "Stop" 0 ["Stop"] false]

/-- A controller state in which agent 1 has been registered, initialized
and started (fresh Session State, counter already incremented to 1). -/
def c2wstate : CState :=
  { CState.initial with
      agents := [(1, newAgent 0 1 [] [])]
      agent_classes := [(1, 0)]
      agent_teams := [(1, "pacman")]
      game_states := [(1, newGameState 10 10 1 [] [] true 0)]
      game_number := [(1, 1)] }

/-- A trace serving agent 1 through one full turn and then asking for its
behavior count. -/
def c3trace : List Msg :=
  [.register 1 0 "pacman", .init 1, .gameStart 1 10 10,
   .state 1 [] [] [(2, (3, 3))] [] "Stop" 0 ["Stop"] false,
   .requestBehaviorCount 1]

/-- The controller state after REGISTER(1, class 0, team pacman) on a
fresh controller. -/
def c3wstate : CState :=
  { CState.initial with agent_classes := [(1, 0)], agent_teams := [(1, "pacman")] }

/-- A trace in which a STATE for never-started agent 2 arrives while
agent 1 still has a request pending behind it. -/
def c5trace : List Msg :=
  [.register 1 0 "pacman", .init 1, .gameStart 1 10 10,
   .state 2 [] [] [] [] "Stop" 0 ["Stop"] false, .requestPolicy 1]

theorem lookupA_insA_self {α : Type} (k : Nat) (v : α) (l : List (Nat × α)) :
    lookupA k (insA k v l) = some v := by
  induction l with
  | nil => simp [insA, lookupA]
  | cons hd t ih =>
    obtain ⟨k', v'⟩ := hd
    by_cases h : k = k' <;> simp [insA, lookupA, h, ih]

theorem lookupA_insA_ne {α : Type} {j k : Nat} (h : j ≠ k) (v : α)
    (l : List (Nat × α)) : lookupA j (insA k v l) = lookupA j l := by
  induction l with
  | nil => simp [insA, lookupA, h]
  | cons hd t ih =>
    obtain ⟨k', v'⟩ := hd
    by_cases h2 : k = k'
    · subst h2
      simp [insA, lookupA, h]
    · by_cases h3 : j = k' <;> simp [insA, lookupA, h2, h3, ih]

theorem insA_insA_same {α : Type} (k : Nat) (v1 v2 : α) (l : List (Nat × α)) :
    insA k v2 (insA k v1 l) = insA k v2 l := by
  induction l with
  | nil => simp [insA]
  | cons hd t ih =>
    obtain ⟨k', v'⟩ := hd
    by_cases h : k = k' <;> simp [insA, h, ih]

theorem keysA_insA_of_lookup {α : Type} {k : Nat} {w : α} {l : List (Nat × α)}
    (h : lookupA k l = some w) (v : α) : keysA (insA k v l) = keysA l := by
  induction l with
  | nil => simp [lookupA] at h
  | cons hd t ih =>
    obtain ⟨k', v'⟩ := hd
    by_cases h2 : k = k'
    · simp [insA, keysA, h2]
    · simp [lookupA, h2] at h
      simp [insA, keysA, h2] at ih ⊢
      exact ih h

theorem predict_foldl_log (act : String) (ids : List Nat) (g : GameState) :
    (ids.foldl (fun g id => g.predict_agent id act) g).predict_log
      = g.predict_log ++ ids.map (fun id => (id, act)) := by
  induction ids generalizing g with
  | nil => simp
  | cons i t ih =>
    rw [List.foldl_cons, ih]
    simp [GameState.predict_agent]

theorem observe_all_agents_log (apos : List (Nat × Pos)) (gs : GameState) :
    (observe_all_agents gs apos).predict_log = gs.predict_log := by
  induction apos generalizing gs with
  | nil => rfl
  | cons p t ih => simp [observe_all_agents, GameState.observe_agent, ih] at ih ⊢; exact ih _

theorem observe_all_fragile_log (frag : List (Nat × Bool)) (gs : GameState) :
    (observe_all_fragile gs frag).predict_log = gs.predict_log := by
  induction frag generalizing gs with
  | nil => rfl
  | cons p t ih => simp [observe_all_fragile, GameState.observe_fragile_agent, ih] at ih ⊢; exact ih _

/-- Claim C4 (confirmed): a message whose kind is not in the dispatch
table of `__process__` falls through every branch — no handler runs, no
reply is sent, and the registry, agent instances, Session States and
episode counters are all left exactly as they were. -/
theorem claim_C4 (ca : ChooseFn) (s : CState) (tag : Nat) :
    process ca s (.other tag) = .ok (s, []) := rfl

/-- Claim C7 (confirmed): re-registering an agent overwrites its team and
decision type: registering `(id, c1, t1)` and then `(id, c2, t2)` leaves
the controller in exactly the state produced by registering `(id, c2, t2)`
alone, so every later ally/enemy computation and instance construction
reads `(c2, t2)` and no trace of `(c1, t1)` remains. -/
theorem claim_C7 (s : CState) (id c1 c2 : Nat) (t1 t2 : String) :
    (register_agent (register_agent s id c1 t1).1 id c2 t2).1
      = (register_agent s id c2 t2).1
    ∧ lookupA id (register_agent (register_agent s id c1 t1).1 id c2 t2).1.agent_teams
      = some t2
    ∧ lookupA id (register_agent (register_agent s id c1 t1).1 id c2 t2).1.agent_classes
      = some c2 := by
  refine ⟨?_, ?_, ?_⟩ <;>
    simp [register_agent, insA_insA_same, lookupA_insA_self]

/-- Claim C10 (confirmed): handling REGISTER touches only the registering
agent's entries in the class and team mappings; the agent instances,
Session States, episode counters and cached last action are untouched, and
every other agent's class and team bindings are unchanged. -/
theorem claim_C10 (s : CState) (id c : Nat) (t : String) (j : Nat) :
    (register_agent s id c t).1.agents = s.agents
    ∧ (register_agent s id c t).1.game_states = s.game_states
    ∧ (register_agent s id c t).1.game_number = s.game_number
    ∧ (register_agent s id c t).1.last_action = s.last_action
    ∧ (j ≠ id →
        lookupA j (register_agent s id c t).1.agent_classes = lookupA j s.agent_classes
        ∧ lookupA j (register_agent s id c t).1.agent_teams = lookupA j s.agent_teams) :=
  ⟨rfl, rfl, rfl, rfl, fun h => ⟨lookupA_insA_ne h c s.agent_classes,
    lookupA_insA_ne h t s.agent_teams⟩⟩

/-- Witness for claim C10 at a concrete input: registering agent 1 leaves
agent 2's class binding unchanged. -/
theorem claim_C10_witness :
    lookupA 2 (register_agent CState.initial 1 5 "pacman").1.agent_classes
      = lookupA 2 CState.initial.agent_classes :=
  ((claim_C10 CState.initial 1 5 "pacman" 2).2.2.2.2 (by decide)).1

/-- Claim C6 (confirmed): for an agent with a Registration Record,
handling INIT replaces any previous Agent Instance with a freshly
constructed one, whose behavior counter is 0 — regardless of what the old
instance's counter held (the old instance is dropped from `agents` before
the new one is stored). -/
theorem claim_C6 (ca : ChooseFn) (s : CState) (aid : Nat) (tm : String)
    (cls : Nat) (al en : List Nat)
    (htm : lookupA aid s.agent_teams = some tm)
    (hcls : lookupA aid s.agent_classes = some cls)
    (hal : get_allies s aid = .ok al)
    (hen : get_enemies s aid = .ok en) :
    (process ca s (.init aid)).map (fun p => lookupA aid p.1.agents)
      = .ok (some (newAgent cls aid al en))
    ∧ (newAgent cls aid al en).behavior_count = 0 := by
  refine ⟨?_, rfl⟩
  simp only [process, initialize_agent, hal, hen]
  simp [Except.map, hcls, htm, lookupA_insA_self]

/-- Witness for claim C6: initializing registered agent 1 stores a fresh
instance with behavior counter 0. -/
theorem claim_C6_witness :
    (process caStop c6wstate (.init 1)).map (fun p => lookupA 1 p.1.agents)
      = .ok (some (newAgent 7 1 [] []))
    ∧ (newAgent 7 1 [] []).behavior_count = 0 :=
  claim_C6 caStop c6wstate 1 "pacman" 7 [] [] rfl rfl rfl rfl

/-- Claim C8 (confirmed): for an agent whose team and episode counter are
on record, handling GAME_START installs a freshly constructed Session
State (the previous one, if any, is deleted first): its observed-position
and fragility maps are empty, so nothing observed before the new
GAME_START is visible after it. -/
theorem claim_C8 (ca : ChooseFn) (s : CState) (aid w h : Nat) (tm : String)
    (n : Nat) (al en : List Nat)
    (htm : lookupA aid s.agent_teams = some tm)
    (hnum : lookupA aid s.game_number = some n)
    (hal : get_allies s aid = .ok al)
    (hen : get_enemies s aid = .ok en) :
    (process ca s (.gameStart aid w h)).map (fun p => lookupA aid p.1.game_states)
      = .ok (some (newGameState w h aid al en (tm == "pacman") n))
    ∧ (newGameState w h aid al en (tm == "pacman") n).observed_pos = []
    ∧ (newGameState w h aid al en (tm == "pacman") n).fragile = [] := by
  refine ⟨?_, rfl, rfl⟩
  simp only [process, start_game_for_agent, hal, hen, htm]
  simp [Except.map, hnum, lookupA_insA_self]

/-- Witness for claim C8: starting a game for agent 1 (team pacman,
episode counter 3) installs a fresh Session State with iteration 3 and
empty observation maps. -/
theorem claim_C8_witness :
    (process caStop c8wstate (.gameStart 1 5 6)).map (fun p => lookupA 1 p.1.game_states)
      = .ok (some (newGameState 5 6 1 [] [] true 3))
    ∧ (newGameState 5 6 1 [] [] true 3).observed_pos = []
    ∧ (newGameState 5 6 1 [] [] true 3).fragile = [] :=
  claim_C8 caStop c8wstate 1 5 6 "pacman" 3 [] [] rfl rfl rfl rfl

/-- Claim C9 (confirmed): REQUEST_BEHAVIOR_COUNT replies with the
behavior-counter value read before the reset (the reply snapshot is the
unmodified state `s`), and afterwards the counter is 0, so a second
REQUEST_BEHAVIOR_COUNT replies with 0. -/
theorem claim_C9 (ca : ChooseFn) (s : CState) (aid : Nat) (ag : AgentInstance)
    (s' : CState)
    (hag : lookupA aid s.agents = some ag)
    (hs' : s' = { s with agents := insA aid { ag with behavior_count := 0 } s.agents }) :
    process ca s (.requestBehaviorCount aid)
      = .ok (s', [(Reply.behaviorCount ag.behavior_count, s)])
    ∧ (process ca s' (.requestBehaviorCount aid)).map (fun p => p.2.map Prod.fst)
      = .ok [Reply.behaviorCount 0] := by
  constructor
  · simp [process, request_behavior_count, hag, hs']
  · subst hs'
    simp [process, request_behavior_count, Except.map, lookupA_insA_self]

/-- Witness for claim C9: with agent 1's counter at 5, the first
REQUEST_BEHAVIOR_COUNT replies 5 and the next replies 0. -/
theorem claim_C9_witness :
    process caStop c9wstate (.requestBehaviorCount 1)
      = .ok (c9wstate2, [(Reply.behaviorCount 5, c9wstate)])
    ∧ (process caStop c9wstate2 (.requestBehaviorCount 1)).map (fun p => p.2.map Prod.fst)
      = .ok [Reply.behaviorCount 0] :=
  claim_C9 caStop c9wstate 1 c9ag c9wstate2 rfl rfl

/-- Claim C1 as frozen is refuted (see `claim_C1_cex`): every INIT — not
only the first — resets the episode counter to 0
(`__initialize_agent__` assigns `self.game_number[agent_id] = 0`
unconditionally).  Amended claim: handling INIT always sets the episode
counter to 0, and each GAME_START seeds the Session State with the
current counter value `n` and leaves the counter at `n + 1`; hence the
seeded iterations are 0, 1, 2, … exactly along GAME_STARTs with no
intervening INIT. -/
theorem claim_C1_amended (ca : ChooseFn) (s : CState) (aid : Nat) (tm : String)
    (cls n w h : Nat) (al en : List Nat)
    (htm : lookupA aid s.agent_teams = some tm)
    (hcls : lookupA aid s.agent_classes = some cls)
    (hnum : lookupA aid s.game_number = some n)
    (hal : get_allies s aid = .ok al)
    (hen : get_enemies s aid = .ok en) :
    ((process ca s (.init aid)).map (fun p => lookupA aid p.1.game_number)
      = .ok (some 0))
    ∧ ((process ca s (.gameStart aid w h)).map
        (fun p => ((lookupA aid p.1.game_states).map GameState.iteration,
                   lookupA aid p.1.game_number))
      = .ok (some n, some (n + 1))) := by
  constructor
  · simp only [process, initialize_agent, hal, hen]
    simp [Except.map, hcls, htm, lookupA_insA_self]
  · simp only [process, start_game_for_agent, hal, hen, htm]
    simp [Except.map, newGameState, hnum, lookupA_insA_self]

/-- Counterexample to claim C1 as frozen: after REGISTER(1), INIT(1),
GAME_START(1), INIT(1), GAME_START(1), the second GAME_START seeds
iteration 0, not 1 — the intervening INIT reset the episode counter. -/
theorem claim_C1_cex :
    ((runLoop caStop CState.initial c1trace).finalState.map
      (fun s => (lookupA 1 s.game_states).map GameState.iteration)) = some (some 0)
    ∧ ((runLoop caStop CState.initial c1trace).finalState.map
      (fun s => (lookupA 1 s.game_states).map GameState.iteration)) ≠ some (some 1) := by
  decide


/-- Claim C2 as frozen is refuted (see `claim_C2_cex`): the predict loop
in `__choose_action__` iterates over the keys of the controller-level
`self.game_states` dictionary, not over the ids known to the acting
agent's Session State.  Amended claim: after handling STATE for an agent
with a Session State and an Agent Instance, the acting agent's Session
State has received exactly one `predict_agent(id, chosen_action)` call
for each agent id holding a Session State in the controller (each key of
`game_states`, in iteration order, including the acting agent), appended
to its previous predict log; ids known to the Session State only through
`observe_agent` but with no Session State of their own receive no
predict call. -/
theorem claim_C2_amended (ca : ChooseFn) (s : CState) (aid : Nat)
    (wp fp : List Pos) (apos : List (Nat × Pos)) (frag : List (Nat × Bool))
    (ea : String) (rw : Int) (la : List String) (tmode : Bool)
    (gs : GameState) (ag : AgentInstance)
    (hgs : lookupA aid s.game_states = some gs)
    (hag : lookupA aid s.agents = some ag) :
    (process ca s (.state aid wp fp apos frag ea rw la tmode)).map
      (fun p => (lookupA aid p.1.game_states).map GameState.predict_log)
    = .ok (some (gs.predict_log ++ (keysA s.game_states).map
        (fun id => (id,
          ca (observe_all_fragile (observe_all_agents
                ((gs.set_walls wp).set_food_positions fp) apos) frag)
            ea rw la tmode)))) := by
  simp only [process, send_agent_action, choose_action, hgs, lookupA_insA_self,
    insA_insA_same, hag]
  simp [Except.map, lookupA_insA_self, insA_insA_same, keysA_insA_of_lookup hgs,
    predict_foldl_log, observe_all_agents_log, observe_all_fragile_log,
    GameState.set_walls, GameState.set_food_positions]

/-- Counterexample to claim C2 as frozen: agent 1 (with a Session State)
handles a STATE whose payload mentions agent 2, which has no Session
State of its own.  Afterwards agent 2 is known to agent 1's Session State
(its observed position is recorded) and the chosen action was `"Stop"`,
yet the predict log is `[(1, "Stop")]` — `predict_agent(2, "Stop")` was
never called. -/
theorem claim_C2_cex :
    ((runLoop caStop CState.initial c2trace).finalState.map
      (fun s => (lookupA 1 s.game_states).map
        (fun g => (lookupA 2 g.observed_pos, g.predict_log))))
      = some (some (some (3, 3), [(1, "Stop")]))
    ∧ ((runLoop caStop CState.initial c2trace).finalState.map CState.last_action)
      = some "Stop"
    ∧ ¬ ((2, "Stop") ∈ ([(1, "Stop")] : List (Nat × String))) := by
  decide

/-- Witness for the amended claim C2: agent 1 handles a STATE mentioning
agent 2; the predict log afterwards covers exactly the keys of
`game_states` (namely agent 1). -/
theorem claim_C2_witness :
    (process caStop c2wstate (.state 1 [] [] [(2, (3, 3))] [] "Stop" 0 ["Stop"] false)).map
      (fun p => (lookupA 1 p.1.game_states).map GameState.predict_log)
    = .ok (some ((newGameState 10 10 1 [] [] true 0).predict_log
        ++ (keysA c2wstate.game_states).map
          (fun id => (id,
            caStop (observe_all_fragile (observe_all_agents
                  (((newGameState 10 10 1 [] [] true 0).set_walls []).set_food_positions [])
                  [(2, (3, 3))]) [])
              "Stop" 0 ["Stop"] false)))) :=
  claim_C2_amended caStop c2wstate 1 [] [] [(2, (3, 3))] [] "Stop" 0 ["Stop"] false
    (newGameState 10 10 1 [] [] true 0) (newAgent 0 1 [] []) rfl rfl

/-- Claim C3 as frozen is refuted (see `claim_C3_cex`): for
REQUEST_BEHAVIOR_COUNT the `reset_behavior_count()` call, for GAME_START
the episode-counter increment, and for STATE the `last_action` caching
all run after the reply has been sent.  Amended claim: every recognized
message whose dispatch succeeds sends exactly one reply, and the final
state is the snapshot at the send, except that the behavior-counter
reset (REQUEST_BEHAVIOR_COUNT), the episode-counter increment
(GAME_START) and the last-action caching (STATE) are applied to the
snapshot after the reply is out. -/
theorem initialize_agent_sends {s : CState} {aid : Nat} {s1 : CState}
    {sends : List (Reply × CState)}
    (h : initialize_agent s aid = .ok (s1, sends)) : sends = [(Reply.ack, s1)] := by
  simp only [initialize_agent] at h
  repeat' split at h
  all_goals simp at h
  all_goals obtain ⟨h1, h2⟩ := h
  all_goals subst h1
  all_goals subst h2
  all_goals rfl

theorem start_game_sends {s : CState} {aid w hh : Nat} {s1 : CState}
    {sends : List (Reply × CState)}
    (h : start_game_for_agent s aid w hh = .ok (s1, sends)) :
    sends = [(Reply.ack, s1)] := by
  simp only [start_game_for_agent] at h
  repeat' split at h
  all_goals simp at h
  all_goals obtain ⟨h1, h2⟩ := h
  all_goals subst h1
  all_goals subst h2
  all_goals rfl

theorem send_agent_action_sends {ca : ChooseFn} {s : CState} {aid : Nat}
    {wp fp : List Pos} {apos : List (Nat × Pos)} {frag : List (Nat × Bool)}
    {ea : String} {rw : Int} {la : List String} {tmode : Bool}
    {s1 : CState} {sends : List (Reply × CState)} {act : String}
    (h : send_agent_action ca s aid wp fp apos frag ea rw la tmode
      = .ok (s1, sends, act)) :
    sends = [(Reply.action aid act, s1)] := by
  simp only [send_agent_action] at h
  repeat' split at h
  all_goals simp at h
  all_goals obtain ⟨h1, h2, h3⟩ := h
  all_goals subst h1
  all_goals subst h2
  all_goals subst h3
  all_goals rfl

theorem request_behavior_count_ok {s : CState} {aid : Nat} {s1 : CState}
    {sends : List (Reply × CState)}
    (h : request_behavior_count s aid = .ok (s1, sends)) :
    ∃ ag, lookupA aid s.agents = some ag
      ∧ sends = [(Reply.behaviorCount ag.behavior_count, s)]
      ∧ s1 = { s with agents := insA aid { ag with behavior_count := 0 } s.agents } := by
  simp only [request_behavior_count] at h
  split at h
  · simp at h
  · rename_i ag heq
    simp only [Except.ok.injEq, Prod.mk.injEq] at h
    obtain ⟨h1, h2⟩ := h
    exact ⟨ag, heq, h2.symm, h1.symm⟩

theorem send_policy_request_ok {s : CState} {aid : Nat} {s1 : CState}
    {sends : List (Reply × CState)}
    (h : send_policy_request s aid = .ok (s1, sends)) :
    s1 = s ∧ ∃ ag, lookupA aid s.agents = some ag
      ∧ sends = [(Reply.policy aid ag.policy, s)] := by
  simp only [send_policy_request] at h
  split at h
  · simp at h
  · rename_i ag heq
    simp only [Except.ok.injEq, Prod.mk.injEq] at h
    obtain ⟨h1, h2⟩ := h
    exact ⟨h1.symm, ag, heq, h2.symm⟩

theorem set_agent_policy_sends {s : CState} {aid p : Nat} {s1 : CState}
    {sends : List (Reply × CState)}
    (h : set_agent_policy s aid p = .ok (s1, sends)) : sends = [(Reply.ack, s1)] := by
  simp only [set_agent_policy] at h
  split at h
  · simp at h
  · simp only [Except.ok.injEq, Prod.mk.injEq] at h
    obtain ⟨h1, h2⟩ := h
    subst h1
    subst h2
    rfl

theorem claim_C3_amended (ca : ChooseFn) (s : CState) (m : Msg) (s' : CState)
    (sends : List (Reply × CState))
    (hrec : recognized m = true)
    (hok : process ca s m = .ok (s', sends)) :
    sends.map (fun p => post_reply_mutation m p.1 p.2) = [s'] := by
  cases m with
  | register aid cls team =>
    simp only [process, register_agent, Except.ok.injEq, Prod.mk.injEq] at hok
    obtain ⟨h1, h2⟩ := hok
    subst h1
    subst h2
    simp [post_reply_mutation]
  | init aid =>
    simp only [process] at hok
    have hs := initialize_agent_sends hok
    subst hs
    simp [post_reply_mutation]
  | gameStart aid w h =>
    simp only [process] at hok
    cases hsg : start_game_for_agent s aid w h with
    | error e => rw [hsg] at hok; simp at hok
    | ok p =>
      obtain ⟨s1, sends1⟩ := p
      rw [hsg] at hok
      dsimp only at hok
      have hs := start_game_sends hsg
      cases hn : lookupA aid s1.game_number with
      | none => rw [hn] at hok; simp at hok
      | some n =>
        rw [hn] at hok
        dsimp only at hok
        simp only [Except.ok.injEq, Prod.mk.injEq] at hok
        obtain ⟨h1, h2⟩ := hok
        subst h1
        subst h2
        subst hs
        simp [post_reply_mutation, hn]
  | state aid wp fp apos frag ea rw la tmode =>
    simp only [process] at hok
    cases hsa : send_agent_action ca s aid wp fp apos frag ea rw la tmode with
    | error e => rw [hsa] at hok; simp at hok
    | ok p =>
      obtain ⟨s1, sends1, act⟩ := p
      rw [hsa] at hok
      have hs := send_agent_action_sends hsa
      simp only [Except.ok.injEq, Prod.mk.injEq] at hok
      obtain ⟨h1, h2⟩ := hok
      subst h1
      subst h2
      subst hs
      simp [post_reply_mutation]
  | requestBehaviorCount aid =>
    simp only [process] at hok
    obtain ⟨ag, hag, hsends, hs1⟩ := request_behavior_count_ok hok
    subst hsends
    subst hs1
    simp [post_reply_mutation, hag]
  | requestPolicy aid =>
    simp only [process] at hok
    obtain ⟨hs1, ag, hag, hsends⟩ := send_policy_request_ok hok
    subst hs1
    subst hsends
    simp [post_reply_mutation]
  | policy aid p =>
    simp only [process] at hok
    have hs := set_agent_policy_sends hok
    subst hs
    simp [post_reply_mutation]
  | other tag => simp [recognized] at hrec

/-- Counterexample to claim C3 as frozen: after REGISTER, INIT,
GAME_START and one STATE for agent 1 (which leaves its behavior counter
at 1), dispatching REQUEST_BEHAVIOR_COUNT sends the reply
`BehaviorCount 1` while the counter still reads 1 in the send-time
snapshot, yet the counter reads 0 once dispatch has finished — a state
mutation performed after the reply was sent. -/
theorem claim_C3_cex :
    ((runLoop caStop CState.initial c3trace).sentMsgs.getLast?).map
        (fun p => (p.1, (lookupA 1 p.2.agents).map AgentInstance.behavior_count))
      = some (Reply.behaviorCount 1, some 1)
    ∧ ((runLoop caStop CState.initial c3trace).finalState.map
        (fun s => (lookupA 1 s.agents).map AgentInstance.behavior_count))
      = some (some 0) := by
  decide

/-- Witness for the amended claim C3: a REGISTER dispatch sends exactly
one reply and its send-time snapshot already is the final state. -/
theorem claim_C3_witness :
    ([(Reply.ack, c3wstate)].map
      (fun p => post_reply_mutation (.register 1 0 "pacman") p.1 p.2)) = [c3wstate] :=
  claim_C3_amended caStop CState.initial (.register 1 0 "pacman") c3wstate
    [(Reply.ack, c3wstate)] rfl rfl

/-- Claim C5 as frozen is refuted (see `claim_C5_cex`): the lookup error
is not confined to the single request.  Amended claim: a STATE message
for an agent with no Session State raises the `game_states` lookup
failure before any mutation or reply for that request, and the run loop
does not catch it — the router crashes and the remaining messages are
never processed (the hardening recommended in spec section 7 is not
implemented). -/
theorem claim_C5_amended (ca : ChooseFn) (s : CState) (aid : Nat)
    (wp fp : List Pos) (apos : List (Nat × Pos)) (frag : List (Nat × Bool))
    (ea : String) (rw : Int) (la : List String) (tmode : Bool) (ms : List Msg)
    (hnone : lookupA aid s.game_states = none) :
    process ca s (.state aid wp fp apos frag ea rw la tmode)
      = .error (.keyError "game_states" aid)
    ∧ runLoop ca s (.state aid wp fp apos frag ea rw la tmode :: ms)
      = .crashed (.keyError "game_states" aid) [] := by
  have h1 : process ca s (.state aid wp fp apos frag ea rw la tmode)
      = .error (.keyError "game_states" aid) := by
    simp [process, send_agent_action, hnone]
  exact ⟨h1, by simp [runLoop, h1]⟩

/-- Counterexample to claim C5 as frozen: after serving agent 1, a STATE
message for agent 2 (no prior GAME_START) crashes the router: the run
ends crashed, only the three earlier acknowledgments were ever sent, and
the following REQUEST_POLICY for agent 1 is never served — the failure is
not confined to the single offending request. -/
theorem claim_C5_cex :
    (runLoop caStop CState.initial c5trace).isCrashed = true
    ∧ (runLoop caStop CState.initial c5trace).sentMsgs.length = 3
    ∧ (runLoop caStop CState.initial c5trace).finalState = none := by
  decide

/-- Witness for the amended claim C5: on a fresh controller, a STATE for
agent 2 fails with the `game_states` lookup error and the run loop
crashes without serving the queued REQUEST_POLICY. -/
theorem claim_C5_witness :
    process caStop CState.initial (.state 2 [] [] [] [] "Stop" 0 [] false)
      = .error (.keyError "game_states" 2)
    ∧ runLoop caStop CState.initial
        (.state 2 [] [] [] [] "Stop" 0 [] false :: [.requestPolicy 1])
      = .crashed (.keyError "game_states" 2) [] :=
  claim_C5_amended caStop CState.initial 2 [] [] [] [] "Stop" 0 [] false
    [.requestPolicy 1] rfl

/-- Witness for the amended claim C1: with agent 1's counter at 4, INIT
resets it to 0, while GAME_START seeds iteration 4 and leaves the counter
at 5. -/
theorem claim_C1_witness :
    ((process caStop c1wstate (.init 1)).map (fun p => lookupA 1 p.1.game_number)
      = .ok (some 0))
    ∧ ((process caStop c1wstate (.gameStart 1 10 10)).map
        (fun p => ((lookupA 1 p.1.game_states).map GameState.iteration,
                   lookupA 1 p.1.game_number))
      = .ok (some 4, some 5)) :=
  claim_C1_amended caStop c1wstate 1 "pacman" 0 4 10 10 [] [] rfl rfl rfl rfl rfl

end MRL
